import Mathlib

/-!
Verification of the DCF valuation tool (src/dcf_app.py) against its
natural-language specification.

The Python source is a single Streamlit script.  We shallowly embed its two
computational parts over exact rationals:

* get_dcf_inputs (lines 10-87): the input normalizer, turning raw provider
  data into the dictionary of normalized quantities.  Provider lookups that
  may be absent (info.get keys, optional statement rows, the risk-free-rate
  proxy fetch wrapped in try/except) are modelled as Option fields.
  A Python ZeroDivisionError is modelled as Except.error PyErr.zeroDivision.

* the module-level main logic (lines 131-231): the valuation computation.
  Streamlit display calls (st.metric, st.dataframe, st.error, ...) are
  modelled as an ordered list of Emitted items, so that what was shown
  before an abort is observable; st.stop and uncaught exceptions end the
  run with an Except.error.
-/

namespace DcfApp

/-- Point-in-time fields read from stock.info via .get; absent keys give
None in Python, modelled as Option. -/
structure MarketInfo where
  marketCap : Option ℚ
  sharesOutstanding : Option ℚ
  currentPrice : Option ℚ
  beta : Option ℚ
  totalDebt : Option ℚ
  totalCash : Option ℚ
deriving DecidableEq

/-- The raw provider data consumed by get_dcf_inputs.  Statement rows that
the code looks up by label and that may be missing (the two CapEx labels,
EBIT, Pretax Income, Tax Provision) are Option lists of quarterly values.
riskFreeProxy is the most recent 10-year-yield close in percent; none means
the try-block around the treasury fetch failed (source lines 45-49). -/
structure RawFinancials where
  info : MarketInfo
  totalRevenue : List ℚ
  operatingCashFlow : List ℚ
  capitalExpenditure : Option (List ℚ)
  capex : Option (List ℚ)
  ebit : Option (List ℚ)
  pretaxIncome : Option (List ℚ)
  taxProvision : Option (List ℚ)
  riskFreeProxy : Option ℚ
deriving DecidableEq

/-- .iloc[:4].sum() — sum of the most recent 4 quarterly values. -/
def ttm4 (l : List ℚ) : ℚ := (l.take 4).sum

/-- Source line 28: ttm_revenue. -/
def ttm_revenue (raw : RawFinancials) : ℚ := ttm4 raw.totalRevenue

/-- Source line 29: op_cash. -/
def op_cash (raw : RawFinancials) : ℚ := ttm4 raw.operatingCashFlow

/-- Source lines 32-37: CapEx under the label Capital Expenditure, else
under Capex, else 0. -/
def cap_ex (raw : RawFinancials) : ℚ :=
  match raw.capitalExpenditure with
  | some l => ttm4 l
  | none =>
    match raw.capex with
    | some l => ttm4 l
    | none => 0

/-- Source line 39: ttm_fcf = op_cash + cap_ex (no sign flip). -/
def ttm_fcf (raw : RawFinancials) : ℚ := op_cash raw + cap_ex raw

/-- Source line 42: stock.info.get with default 1.0. -/
def beta_val (raw : RawFinancials) : ℚ := raw.info.beta.getD 1

/-- Source lines 45-49: yield close divided by 100, or 0.04 on any failure. -/
def risk_free_rate (raw : RawFinancials) : ℚ :=
  match raw.riskFreeProxy with
  | some p => p / 100
  | none => (4 : ℚ) / 100

/-- Source line 51. -/
def market_return : ℚ := (10 : ℚ) / 100

/-- Source line 52: CAPM cost of equity. -/
def cost_of_equity (raw : RawFinancials) : ℚ :=
  risk_free_rate raw + beta_val raw * (market_return - risk_free_rate raw)

/-- Source lines 55-60: try EBIT then Pretax Income; a KeyError on either
lookup falls back to implied_interest = 0. -/
def implied_interest (raw : RawFinancials) : ℚ :=
  match raw.ebit, raw.pretaxIncome with
  | some e, some p => |ttm4 e - ttm4 p|
  | _, _ => 0

/-- Source lines 55-60: the local variable ttm_pretax is assigned only when
the EBIT lookup succeeded first (the try-block assigns ttm_ebit, then
ttm_pretax); if either lookup raised KeyError the variable stays unassigned,
which line 68 later observes as a NameError.  Modelled as an Option. -/
def ttm_pretax_assigned (raw : RawFinancials) : Option ℚ :=
  match raw.ebit, raw.pretaxIncome with
  | some _, some p => some (ttm4 p)
  | _, _ => none

/-- Source line 62: stock.info.get with default 0. -/
def total_debt_val (raw : RawFinancials) : ℚ := raw.info.totalDebt.getD 0

/-- Source line 63. -/
def cost_of_debt (raw : RawFinancials) : ℚ :=
  if 0 < total_debt_val raw then implied_interest raw / total_debt_val raw else 0

/-- Source lines 66-70: Tax Provision lookup may raise KeyError, and the
read of ttm_pretax may raise NameError when the EBIT/Pretax try-block failed;
the bare except maps both to the 0.21 default, as does a zero pretax total. -/
def tax_rate (raw : RawFinancials) : ℚ :=
  match raw.taxProvision with
  | none => (21 : ℚ) / 100
  | some tp =>
    match ttm_pretax_assigned raw with
    | none => (21 : ℚ) / 100
    | some pretax => if pretax ≠ 0 then ttm4 tp / pretax else (21 : ℚ) / 100

/-- A Python exception that ends the run: a ZeroDivisionError (or the other
uncaught errors funnelled into the generic handler at line 233) or the
st.stop abort after the wacc guard message at lines 198-200. -/
inductive PyErr where
  | zeroDivision
  | invalidAssumption
deriving DecidableEq

/-- The dictionary returned by get_dcf_inputs (source lines 78-87); the
Ticker string field is presentation-only and omitted.  Current Price and
Shares Outstanding are passed through from stock.info and may be None. -/
structure DcfInputs where
  current_price : Option ℚ
  shares_outstanding : Option ℚ
  ttm_revenue : ℚ
  ttm_fcf : ℚ
  wacc : ℚ
  total_debt : ℚ
  cash : ℚ
deriving DecidableEq

/-- Source lines 73-76: the WACC formula, given the market cap unwrapped. -/
def wacc_of (raw : RawFinancials) (market_cap : ℚ) : ℚ :=
  (market_cap / (market_cap + total_debt_val raw)) * cost_of_equity raw +
    (total_debt_val raw / (market_cap + total_debt_val raw)) * cost_of_debt raw *
      (1 - tax_rate raw)

/-- Source lines 10-87.  Returns .ok none when marketCap is absent (the
early return None at line 16), .error zeroDivision when the weight division
at line 74 divides by total_val = 0, and otherwise the populated dictionary.
The Total Revenue and Operating Cash Flow rows are modelled as always
present (plain lists). -/
def get_dcf_inputs (raw : RawFinancials) : Except PyErr (Option DcfInputs) :=
  match raw.info.marketCap with
  | none => Except.ok none
  | some market_cap =>
    if market_cap + total_debt_val raw = 0 then Except.error PyErr.zeroDivision
    else
      Except.ok (some
        { current_price := raw.info.currentPrice
          shares_outstanding := raw.info.sharesOutstanding
          ttm_revenue := ttm_revenue raw
          ttm_fcf := ttm_fcf raw
          wacc := wacc_of raw market_cap
          total_debt := total_debt_val raw
          cash := raw.info.totalCash.getD 0 })

/-- The normalized quantities the main logic extracts at lines 141-146
together with the current price read at line 211. -/
structure NormalizedInputs where
  ttm_revenue : ℚ
  ttm_fcf : ℚ
  wacc : ℚ
  total_debt : ℚ
  cash : ℚ
  shares_outstanding : ℚ
  current_price : ℚ
deriving DecidableEq

/-- The user-adjustable sidebar values (lines 102-127), already scaled from
percent to fraction; projected_margin is None when the override checkbox is
off. -/
structure Assumptions where
  growth_rate : ℚ
  terminal_growth_rate : ℚ
  projected_margin : Option ℚ
deriving DecidableEq

/-- One period of the projection loop (lines 174-189): the year index and
the four per-period quantities the loop computes. -/
structure ProjectionRow where
  year : ℕ
  revenue : ℚ
  fcf : ℚ
  discount_factor : ℚ
  pv_fcf : ℚ
deriving DecidableEq

/-- The body of the loop at lines 174-189, iterated over the remaining
years, threading current_rev. -/
def projLoop (g m w : ℚ) : ℚ → List ℕ → List ProjectionRow
  | _, [] => []
  | rev, year :: rest =>
    let current_rev := rev * (1 + g)
    let estimated_fcf := current_rev * m
    let disc_factor := 1 / (1 + w) ^ year
    let pv := estimated_fcf * disc_factor
    ⟨year, current_rev, estimated_fcf, disc_factor, pv⟩ ::
      projLoop g m w current_rev rest

/-- Lines 169-189: years = range(1, 6) and the projection loop started from
the TTM revenue base. -/
def projectionRows (revenue g m w : ℚ) : List ProjectionRow :=
  projLoop g m w revenue [1, 2, 3, 4, 5]

/-- Lines 152-157: the margin used for projections is the override when
given, else the historical TTM margin fcf / revenue. -/
def marginUsed (inp : NormalizedInputs) (a : Assumptions) : ℚ :=
  match a.projected_margin with
  | none => inp.ttm_fcf / inp.ttm_revenue
  | some m => m

/-- The projection table a given run builds. -/
def theRows (inp : NormalizedInputs) (a : Assumptions) : List ProjectionRow :=
  projectionRows inp.ttm_revenue a.growth_rate (marginUsed inp a) inp.wacc

/-- Line 197: future_fcf[-1] (the lists built by the loop always have
5 entries, so the default is never used). -/
def fcf_year_5 (inp : NormalizedInputs) (a : Assumptions) : ℚ :=
  ((theRows inp a).map ProjectionRow.fcf).getLastD 0

/-- Line 203: discount_factors[-1]. -/
def df_year_5 (inp : NormalizedInputs) (a : Assumptions) : ℚ :=
  ((theRows inp a).map ProjectionRow.discount_factor).getLastD 0

/-- Line 202: Gordon growth terminal value. -/
def terminal_value (inp : NormalizedInputs) (a : Assumptions) : ℚ :=
  fcf_year_5 inp a * (1 + a.terminal_growth_rate) / (inp.wacc - a.terminal_growth_rate)

/-- Line 203. -/
def pv_terminal_value (inp : NormalizedInputs) (a : Assumptions) : ℚ :=
  terminal_value inp a * df_year_5 inp a

/-- Line 206: sum(discounted_fcf). -/
def sum_pv_fcf (inp : NormalizedInputs) (a : Assumptions) : ℚ :=
  ((theRows inp a).map ProjectionRow.pv_fcf).sum

/-- Line 207. -/
def enterprise_value (inp : NormalizedInputs) (a : Assumptions) : ℚ :=
  sum_pv_fcf inp a + pv_terminal_value inp a

/-- Line 208. -/
def equity_value (inp : NormalizedInputs) (a : Assumptions) : ℚ :=
  enterprise_value inp a + inp.cash - inp.total_debt

/-- Line 209. -/
def calculated_share_price (inp : NormalizedInputs) (a : Assumptions) : ℚ :=
  equity_value inp a / inp.shares_outstanding

/-- Line 212: difference = 1 - calculated / actual. -/
def percent_difference (inp : NormalizedInputs) (a : Assumptions) : ℚ :=
  1 - calculated_share_price inp a / inp.current_price

/-- The verdict branch at lines 228-231. -/
inductive Verdict where
  | UNDERVALUED
  | OVERVALUED
deriving DecidableEq

/-- The quantities the results section (lines 214-231) reports; the
magnitude shown in the verdict message is abs(difference). -/
structure ValuationResult where
  terminal_value : ℚ
  pv_terminal_value : ℚ
  enterprise_value : ℚ
  equity_value : ℚ
  fair_value_per_share : ℚ
  percent_difference : ℚ
  verdict : Verdict
  verdict_magnitude : ℚ
deriving DecidableEq

/-- The full result record a successful run displays (lines 214-231). -/
def buildResult (inp : NormalizedInputs) (a : Assumptions) : ValuationResult :=
  { terminal_value := terminal_value inp a
    pv_terminal_value := pv_terminal_value inp a
    enterprise_value := enterprise_value inp a
    equity_value := equity_value inp a
    fair_value_per_share := calculated_share_price inp a
    percent_difference := percent_difference inp a
    verdict :=
      if inp.current_price < calculated_share_price inp a then Verdict.UNDERVALUED
      else Verdict.OVERVALUED
    verdict_magnitude := |percent_difference inp a| }

/-- One item shown to the user, in display order: the key-stats metrics
(lines 160-163), the projection table (lines 191-194), an st.error message,
or the final results section (lines 214-231). -/
inductive Emitted where
  | keyStats (price wacc margin : ℚ)
  | projectionTable (rows : List ProjectionRow)
  | errorMsg (msg : String)
  | valuationResults (res : ValuationResult)
deriving DecidableEq

/-- What has been displayed before the projection table appears. -/
def preEmits (inp : NormalizedInputs) (a : Assumptions) : List Emitted :=
  [Emitted.keyStats inp.current_price inp.wacc (marginUsed inp a),
   Emitted.projectionTable (theRows inp a)]

/-- The main logic at lines 131-231 for one set of fetched inputs, as the
ordered list of displayed items paired with how the run ended.  In source
order: line 149 divides fcf by revenue (ZeroDivisionError when revenue = 0,
before anything is displayed); the key stats are displayed; the loop
divides by (1 + wacc) ^ year (ZeroDivisionError when wacc = -1, after the
key stats but before the table); the table is displayed; the guard at
lines 198-200 prints an error and stops when wacc <= terminal growth; line
209 divides by shares and line 212 by the current price; then the results
are displayed. -/
def runValuation (inp : NormalizedInputs) (a : Assumptions) :
    List Emitted × Except PyErr ValuationResult :=
  if inp.ttm_revenue = 0 then
    ([Emitted.errorMsg "An error occurred"], Except.error PyErr.zeroDivision)
  else if 1 + inp.wacc = 0 then
    ([Emitted.keyStats inp.current_price inp.wacc (marginUsed inp a),
      Emitted.errorMsg "An error occurred"], Except.error PyErr.zeroDivision)
  else if inp.wacc ≤ a.terminal_growth_rate then
    (preEmits inp a ++
      [Emitted.errorMsg "Error: WACC must be higher than Terminal Growth Rate."],
     Except.error PyErr.invalidAssumption)
  else if inp.shares_outstanding = 0 then
    (preEmits inp a ++ [Emitted.errorMsg "An error occurred"],
     Except.error PyErr.zeroDivision)
  else if inp.current_price = 0 then
    (preEmits inp a ++ [Emitted.errorMsg "An error occurred"],
     Except.error PyErr.zeroDivision)
  else
    (preEmits inp a ++ [Emitted.valuationResults (buildResult inp a)],
     Except.ok (buildResult inp a))

/-! Concrete example inputs used by witnesses and counterexamples. -/

/-- Witness inputs for the projection claim. -/
def inpW1 : NormalizedInputs := ⟨100, 20, 9/100, 10, 50, 1, 150⟩

/-- Witness assumptions for the projection claim. -/
def aW1 : Assumptions := ⟨5/100, 25/1000, none⟩

/-- Witness inputs for the terminal-value claim. -/
def inpW2 : NormalizedInputs := ⟨200, 40, 1/10, 5, 10, 2, 30⟩

/-- Witness assumptions for the terminal-value claim. -/
def aW2 : Assumptions := ⟨1/10, 2/100, none⟩

/-- Witness inputs for the verdict claim. -/
def inpW3 : NormalizedInputs := ⟨100, 25, 1/10, 0, 0, 4, 10⟩

/-- Witness assumptions for the verdict claim (margin override on). -/
def aW3 : Assumptions := ⟨0, 3/100, some (3/10)⟩

/-- Inputs with negative shares outstanding. -/
def inpC4 : NormalizedInputs := ⟨100, 20, 9/100, 10, 50, -1, 150⟩

/-- Assumptions with terminal growth below the wacc of inpC4. -/
def aC4 : Assumptions := ⟨5/100, 25/1000, none⟩

/-- Inputs whose wacc is below the terminal growth rate of aC5. -/
def inpC5 : NormalizedInputs := ⟨100, 20, 2/100, 10, 50, 10, 5⟩

/-- Assumptions with terminal growth above the wacc of inpC5. -/
def aC5 : Assumptions := ⟨5/100, 25/1000, none⟩

/-- Witness inputs for the abort-ordering claim. -/
def inpW5 : NormalizedInputs := ⟨50, 10, 1/100, 0, 0, 1, 1⟩

/-- Witness assumptions for the abort-ordering claim. -/
def aW5 : Assumptions := ⟨0, 25/1000, none⟩

/-- A fully populated raw-data record that the variants below modify. -/
def rawBase : RawFinancials :=
  { info :=
      { marketCap := some 1000
        sharesOutstanding := some 10
        currentPrice := some 100
        beta := some 1
        totalDebt := some 100
        totalCash := some 50 }
    totalRevenue := [25, 25, 25, 25]
    operatingCashFlow := [5, 5, 5, 5]
    capitalExpenditure := some [-1, -1, -1, -1]
    capex := none
    ebit := some [6, 6, 6, 6]
    pretaxIncome := some [5, 5, 5, 5]
    taxProvision := some [1, 1, 1, 1]
    riskFreeProxy := some 4 }

/-- Market cap present but shares outstanding and current price absent. -/
def rawC6 : RawFinancials :=
  { rawBase with info :=
      { rawBase.info with sharesOutstanding := none, currentPrice := none } }

/-- Market cap absent. -/
def rawNoMc : RawFinancials :=
  { rawBase with info := { rawBase.info with marketCap := none } }

/-- Market cap plus total debt strictly negative. -/
def rawC7 : RawFinancials :=
  { rawBase with info :=
      { rawBase.info with marketCap := some 1, totalDebt := some (-2) } }

/-- Market cap plus total debt exactly zero. -/
def rawTV0 : RawFinancials :=
  { rawBase with info :=
      { rawBase.info with marketCap := some 100, totalDebt := some (-100) } }

/-- Risk-free-rate proxy unavailable. -/
def rawC8 : RawFinancials := { rawBase with riskFreeProxy := none }

/-- Neither CapEx label present. -/
def rawC9 : RawFinancials :=
  { rawBase with capitalExpenditure := none, capex := none }

/-- EBIT row absent while Pretax Income and Tax Provision are present. -/
def rawC10 : RawFinancials := { rawBase with ebit := none }

/-! Helper lemmas. -/

/-- The projection list written out: the loop over years one to five with
the revenue recurrence threaded through. -/
lemma theRows_unfold (inp : NormalizedInputs) (a : Assumptions) :
    theRows inp a =
      [⟨1, inp.ttm_revenue * (1 + a.growth_rate),
          inp.ttm_revenue * (1 + a.growth_rate) * marginUsed inp a,
          1 / (1 + inp.wacc) ^ 1,
          inp.ttm_revenue * (1 + a.growth_rate) * marginUsed inp a *
            (1 / (1 + inp.wacc) ^ 1)⟩,
       ⟨2, inp.ttm_revenue * (1 + a.growth_rate) * (1 + a.growth_rate),
          inp.ttm_revenue * (1 + a.growth_rate) * (1 + a.growth_rate) * marginUsed inp a,
          1 / (1 + inp.wacc) ^ 2,
          inp.ttm_revenue * (1 + a.growth_rate) * (1 + a.growth_rate) * marginUsed inp a *
            (1 / (1 + inp.wacc) ^ 2)⟩,
       ⟨3, inp.ttm_revenue * (1 + a.growth_rate) * (1 + a.growth_rate) * (1 + a.growth_rate),
          inp.ttm_revenue * (1 + a.growth_rate) * (1 + a.growth_rate) * (1 + a.growth_rate) *
            marginUsed inp a,
          1 / (1 + inp.wacc) ^ 3,
          inp.ttm_revenue * (1 + a.growth_rate) * (1 + a.growth_rate) * (1 + a.growth_rate) *
            marginUsed inp a * (1 / (1 + inp.wacc) ^ 3)⟩,
       ⟨4, inp.ttm_revenue * (1 + a.growth_rate) * (1 + a.growth_rate) * (1 + a.growth_rate) *
            (1 + a.growth_rate),
          inp.ttm_revenue * (1 + a.growth_rate) * (1 + a.growth_rate) * (1 + a.growth_rate) *
            (1 + a.growth_rate) * marginUsed inp a,
          1 / (1 + inp.wacc) ^ 4,
          inp.ttm_revenue * (1 + a.growth_rate) * (1 + a.growth_rate) * (1 + a.growth_rate) *
            (1 + a.growth_rate) * marginUsed inp a * (1 / (1 + inp.wacc) ^ 4)⟩,
       ⟨5, inp.ttm_revenue * (1 + a.growth_rate) * (1 + a.growth_rate) * (1 + a.growth_rate) *
            (1 + a.growth_rate) * (1 + a.growth_rate),
          inp.ttm_revenue * (1 + a.growth_rate) * (1 + a.growth_rate) * (1 + a.growth_rate) *
            (1 + a.growth_rate) * (1 + a.growth_rate) * marginUsed inp a,
          1 / (1 + inp.wacc) ^ 5,
          inp.ttm_revenue * (1 + a.growth_rate) * (1 + a.growth_rate) * (1 + a.growth_rate) *
            (1 + a.growth_rate) * (1 + a.growth_rate) * marginUsed inp a *
            (1 / (1 + inp.wacc) ^ 5)⟩] := rfl

/-- Discount factors shrink one step at a time when the wacc is positive. -/
lemma df_step_lt (w : ℚ) (hw : 0 < w) (n : ℕ) :
    1 / (1 + w) ^ (n + 1) < 1 / (1 + w) ^ n := by
  have hp : 0 < (1 + w) ^ n := pow_pos (by linarith) n
  have h2 : (1 + w) ^ n < (1 + w) ^ (n + 1) := by
    rw [pow_succ]
    nlinarith
  exact one_div_lt_one_div_of_lt hp h2

/-- The period-5 free cash flow in closed form. -/
lemma fcf_year_5_eq (inp : NormalizedInputs) (a : Assumptions) :
    fcf_year_5 inp a = inp.ttm_revenue * (1 + a.growth_rate) ^ 5 * marginUsed inp a := by
  have h : fcf_year_5 inp a =
      inp.ttm_revenue * (1 + a.growth_rate) * (1 + a.growth_rate) * (1 + a.growth_rate) *
        (1 + a.growth_rate) * (1 + a.growth_rate) * marginUsed inp a := rfl
  rw [h]; ring

/-- The period-5 discount factor in closed form. -/
lemma df_year_5_eq (inp : NormalizedInputs) (a : Assumptions) :
    df_year_5 inp a = 1 / (1 + inp.wacc) ^ 5 := rfl

/-- A successful run returns exactly the record built by buildResult. -/
lemma run_ok (inp : NormalizedInputs) (a : Assumptions) (res : ValuationResult)
    (h : (runValuation inp a).2 = Except.ok res) : res = buildResult inp a := by
  unfold runValuation at h
  split_ifs at h
  simp_all

/-- A produced normalizer record is exactly the dictionary of the source
return statement, for the unwrapped market cap. -/
lemma get_dcf_inputs_ok (raw : RawFinancials) (d : DcfInputs)
    (h : get_dcf_inputs raw = Except.ok (some d)) :
    ∃ mc, raw.info.marketCap = some mc ∧ mc + total_debt_val raw ≠ 0 ∧
      d = { current_price := raw.info.currentPrice
            shares_outstanding := raw.info.sharesOutstanding
            ttm_revenue := ttm_revenue raw
            ttm_fcf := ttm_fcf raw
            wacc := wacc_of raw mc
            total_debt := total_debt_val raw
            cash := raw.info.totalCash.getD 0 } := by
  unfold get_dcf_inputs at h
  cases hmc : raw.info.marketCap with
  | none => rw [hmc] at h; simp at h
  | some mc =>
    rw [hmc] at h
    simp only [] at h
    split_ifs at h with htv
    simp only [Except.ok.injEq, Option.some.injEq] at h
    exact ⟨mc, rfl, htv, h.symm⟩

/-! Claim theorems. -/

/-- Claim C1: for every normalized input and assumption set with
wacc above the terminal growth rate and positive shares outstanding
(and a nonzero revenue base and nondegenerate 1 + wacc, so the two earlier
divisions of the source succeed), the run displays exactly 5 projection
rows, in increasing period order 1..5, with the claimed revenue recurrence
from the TTM base, fcf equal to revenue times the margin used, discount
factor 1 / (1 + wacc) ^ t, present value fcf times discount factor, and,
whenever wacc is positive, strictly decreasing discount factors. -/
theorem C1_projection (inp : NormalizedInputs) (a : Assumptions)
    (hrev : inp.ttm_revenue ≠ 0) (hden : 1 + inp.wacc ≠ 0)
    (_hw : a.terminal_growth_rate < inp.wacc) (_hs : 0 < inp.shares_outstanding) :
    Emitted.projectionTable (theRows inp a) ∈ (runValuation inp a).1 ∧
    (theRows inp a).length = 5 ∧
    (theRows inp a).map ProjectionRow.year = [1, 2, 3, 4, 5] ∧
    (∀ r ∈ theRows inp a, r.fcf = r.revenue * marginUsed inp a ∧
        r.discount_factor = 1 / (1 + inp.wacc) ^ r.year ∧
        r.pv_fcf = r.fcf * r.discount_factor) ∧
    ∃ r1 r2 r3 r4 r5, theRows inp a = [r1, r2, r3, r4, r5] ∧
      r1.revenue = inp.ttm_revenue * (1 + a.growth_rate) ∧
      r2.revenue = r1.revenue * (1 + a.growth_rate) ∧
      r3.revenue = r2.revenue * (1 + a.growth_rate) ∧
      r4.revenue = r3.revenue * (1 + a.growth_rate) ∧
      r5.revenue = r4.revenue * (1 + a.growth_rate) ∧
      (0 < inp.wacc →
        r2.discount_factor < r1.discount_factor ∧
        r3.discount_factor < r2.discount_factor ∧
        r4.discount_factor < r3.discount_factor ∧
        r5.discount_factor < r4.discount_factor) := by
  refine ⟨?_, rfl, rfl, ?_, ?_⟩
  · unfold runValuation
    rw [if_neg hrev, if_neg hden]
    split_ifs <;> simp [preEmits]
  · intro r hr
    rw [theRows_unfold] at hr
    simp only [List.mem_cons, List.not_mem_nil, or_false] at hr
    rcases hr with rfl | rfl | rfl | rfl | rfl <;> exact ⟨rfl, rfl, rfl⟩
  · refine ⟨_, _, _, _, _, theRows_unfold inp a, rfl, rfl, rfl, rfl, rfl, ?_⟩
    intro hw0
    exact ⟨df_step_lt inp.wacc hw0 1, df_step_lt inp.wacc hw0 2,
      df_step_lt inp.wacc hw0 3, df_step_lt inp.wacc hw0 4⟩

/-- Witness for C1 at concrete inputs. -/
theorem C1_witness :
    inpW1.ttm_revenue ≠ 0 ∧ 1 + inpW1.wacc ≠ 0 ∧
    aW1.terminal_growth_rate < inpW1.wacc ∧ 0 < inpW1.shares_outstanding ∧
    (theRows inpW1 aW1).length = 5 := by
  have h1 : inpW1.ttm_revenue ≠ 0 := by norm_num [inpW1]
  have h2 : 1 + inpW1.wacc ≠ 0 := by norm_num [inpW1]
  have h3 : aW1.terminal_growth_rate < inpW1.wacc := by norm_num [aW1, inpW1]
  have h4 : 0 < inpW1.shares_outstanding := by norm_num [inpW1]
  exact ⟨h1, h2, h3, h4, (C1_projection inpW1 aW1 h1 h2 h3 h4).2.1⟩

/-- Claim C2: every run that reaches a result carries the Gordon-growth
terminal value of the period-5 free cash flow, its present value through
the period-5 discount factor, the enterprise value as the sum of the five
discounted cash flows plus the discounted terminal value, the equity value
as enterprise value plus cash minus debt, and the per-share fair value as
equity value over shares outstanding. -/
theorem C2_terminal_and_equity (inp : NormalizedInputs) (a : Assumptions)
    (res : ValuationResult) (h : (runValuation inp a).2 = Except.ok res) :
    res.terminal_value =
      inp.ttm_revenue * (1 + a.growth_rate) ^ 5 * marginUsed inp a *
        (1 + a.terminal_growth_rate) / (inp.wacc - a.terminal_growth_rate) ∧
    res.pv_terminal_value = res.terminal_value * (1 / (1 + inp.wacc) ^ 5) ∧
    res.enterprise_value =
      ((theRows inp a).map ProjectionRow.pv_fcf).sum + res.pv_terminal_value ∧
    res.equity_value = res.enterprise_value + inp.cash - inp.total_debt ∧
    res.fair_value_per_share = res.equity_value / inp.shares_outstanding := by
  obtain rfl := run_ok inp a res h
  refine ⟨?_, ?_, rfl, rfl, rfl⟩
  · show terminal_value inp a = _
    rw [terminal_value, fcf_year_5_eq]
  · show pv_terminal_value inp a = terminal_value inp a * (1 / (1 + inp.wacc) ^ 5)
    rw [pv_terminal_value, df_year_5_eq]

/-- Witness for C2 at concrete inputs. -/
theorem C2_witness :
    (runValuation inpW2 aW2).2 = Except.ok (buildResult inpW2 aW2) ∧
    (buildResult inpW2 aW2).equity_value =
      (buildResult inpW2 aW2).enterprise_value + inpW2.cash - inpW2.total_debt := by
  have h : (runValuation inpW2 aW2).2 = Except.ok (buildResult inpW2 aW2) := by
    norm_num [runValuation, inpW2, aW2]
  exact ⟨h, (C2_terminal_and_equity inpW2 aW2 (buildResult inpW2 aW2) h).2.2.2.1⟩

/-- Claim C3: every run that reaches a result has percent difference
1 - fair value over price, verdict UNDERVALUED exactly when the fair value
exceeds the price (equality giving OVERVALUED), and reported magnitude the
absolute value of the percent difference. -/
theorem C3_verdict (inp : NormalizedInputs) (a : Assumptions)
    (res : ValuationResult) (h : (runValuation inp a).2 = Except.ok res) :
    res.percent_difference = 1 - res.fair_value_per_share / inp.current_price ∧
    (res.verdict = Verdict.UNDERVALUED ↔ inp.current_price < res.fair_value_per_share) ∧
    (res.fair_value_per_share = inp.current_price → res.verdict = Verdict.OVERVALUED) ∧
    res.verdict_magnitude = |res.percent_difference| := by
  obtain rfl := run_ok inp a res h
  refine ⟨rfl, ?_, ?_, rfl⟩
  · show (if inp.current_price < calculated_share_price inp a then Verdict.UNDERVALUED
        else Verdict.OVERVALUED) = Verdict.UNDERVALUED ↔ _
    split_ifs with hc <;> simp [hc, buildResult]
  · intro heq
    show (if inp.current_price < calculated_share_price inp a then Verdict.UNDERVALUED
        else Verdict.OVERVALUED) = Verdict.OVERVALUED
    rw [if_neg]
    rw [show calculated_share_price inp a = inp.current_price from heq]
    exact lt_irrefl _

/-- Witness for C3 at concrete inputs. -/
theorem C3_witness :
    (runValuation inpW3 aW3).2 = Except.ok (buildResult inpW3 aW3) ∧
    (buildResult inpW3 aW3).verdict_magnitude =
      |(buildResult inpW3 aW3).percent_difference| := by
  have h : (runValuation inpW3 aW3).2 = Except.ok (buildResult inpW3 aW3) := by
    norm_num [runValuation, inpW3, aW3]
  exact ⟨h, (C3_verdict inpW3 aW3 (buildResult inpW3 aW3) h).2.2.2⟩

/-- Counterexample to C4 as stated: with shares outstanding equal to -1
(non-positive) and wacc above the terminal growth rate, the run raises
nothing at all and returns a full result. -/
theorem C4_counterexample :
    inpC4.shares_outstanding ≤ 0 ∧ aC4.terminal_growth_rate < inpC4.wacc ∧
    (runValuation inpC4 aC4).2 = Except.ok (buildResult inpC4 aC4) := by
  refine ⟨by norm_num [inpC4], by norm_num [inpC4, aC4], ?_⟩
  norm_num [runValuation, inpC4, aC4]

/-- Claim C4 as amended: the valuation aborts through the wacc guard
exactly when wacc is at most the terminal growth rate (and the earlier
divisions succeeded, that is, the revenue base is nonzero and wacc is not
-1); shares outstanding is never validated, so non-positive shares do not
trigger this abort. -/
theorem C4_guard (inp : NormalizedInputs) (a : Assumptions) :
    (runValuation inp a).2 = Except.error PyErr.invalidAssumption ↔
      inp.ttm_revenue ≠ 0 ∧ 1 + inp.wacc ≠ 0 ∧ inp.wacc ≤ a.terminal_growth_rate := by
  unfold runValuation
  split_ifs <;> simp_all

/-- Counterexample to C5 as stated: when the wacc guard fires, the run has
already displayed the full 5-row projection table, a partial result, before
aborting. -/
theorem C5_counterexample :
    inpC5.wacc ≤ aC5.terminal_growth_rate ∧
    (runValuation inpC5 aC5).2 = Except.error PyErr.invalidAssumption ∧
    Emitted.projectionTable (theRows inpC5 aC5) ∈ (runValuation inpC5 aC5).1 ∧
    (theRows inpC5 aC5).length = 5 := by
  have hw : inpC5.wacc ≤ aC5.terminal_growth_rate := by norm_num [inpC5, aC5]
  have hrev : inpC5.ttm_revenue ≠ 0 := by norm_num [inpC5]
  have hden : 1 + inpC5.wacc ≠ 0 := by norm_num [inpC5]
  unfold runValuation
  rw [if_neg hrev, if_neg hden, if_pos hw]
  exact ⟨hw, rfl, by simp [preEmits], rfl⟩

/-- Claim C5 as amended: when wacc is at most the terminal growth rate
(with a nonzero revenue base and wacc other than -1), the run ends in the
guard error and no ValuationResult is ever constructed or displayed, but
the key stats and the full 5-row projection table have already been
displayed before the abort. -/
theorem C5_abort_after_table (inp : NormalizedInputs) (a : Assumptions)
    (hrev : inp.ttm_revenue ≠ 0) (hden : 1 + inp.wacc ≠ 0)
    (hw : inp.wacc ≤ a.terminal_growth_rate) :
    (runValuation inp a).2 = Except.error PyErr.invalidAssumption ∧
    (∀ res, Emitted.valuationResults res ∉ (runValuation inp a).1) ∧
    Emitted.projectionTable (theRows inp a) ∈ (runValuation inp a).1 ∧
    (theRows inp a).length = 5 := by
  unfold runValuation
  rw [if_neg hrev, if_neg hden, if_pos hw]
  refine ⟨rfl, ?_, by simp [preEmits], rfl⟩
  intro res
  simp [preEmits]

/-- Witness for the amended C5 at concrete inputs. -/
theorem C5_witness :
    inpW5.ttm_revenue ≠ 0 ∧ 1 + inpW5.wacc ≠ 0 ∧
    inpW5.wacc ≤ aW5.terminal_growth_rate ∧
    (runValuation inpW5 aW5).2 = Except.error PyErr.invalidAssumption := by
  have h1 : inpW5.ttm_revenue ≠ 0 := by norm_num [inpW5]
  have h2 : 1 + inpW5.wacc ≠ 0 := by norm_num [inpW5]
  have h3 : inpW5.wacc ≤ aW5.terminal_growth_rate := by norm_num [inpW5, aW5]
  exact ⟨h1, h2, h3, (C5_abort_after_table inpW5 aW5 h1 h2 h3).1⟩

/-- Counterexample to C6 as stated: with shares outstanding and current
price both absent (market cap present), the normalizer does not fail; it
still produces a record. -/
theorem C6_counterexample :
    rawC6.info.sharesOutstanding = none ∧ rawC6.info.currentPrice = none ∧
    ∃ d, get_dcf_inputs rawC6 = Except.ok (some d) := by
  refine ⟨rfl, rfl, ?_⟩
  have hmc : rawC6.info.marketCap = some 1000 := rfl
  unfold get_dcf_inputs
  rw [hmc]
  simp only []
  rw [if_neg (by norm_num [rawC6, rawBase, total_debt_val])]
  exact ⟨_, rfl⟩

/-- Claim C6 as amended: the normalizer refuses to produce a record exactly
when the market cap is absent; absent shares outstanding or current price
do not cause a failure and are passed through into the produced record. -/
theorem C6_missing_fields (raw : RawFinancials) :
    (get_dcf_inputs raw = Except.ok none ↔ raw.info.marketCap = none) ∧
    ∀ d, get_dcf_inputs raw = Except.ok (some d) →
      d.shares_outstanding = raw.info.sharesOutstanding ∧
      d.current_price = raw.info.currentPrice := by
  constructor
  · unfold get_dcf_inputs
    cases hmc : raw.info.marketCap with
    | none => simp
    | some mc =>
      simp only []
      split_ifs <;> simp
  · intro d hd
    obtain ⟨mc, hmc, htv, rfl⟩ := get_dcf_inputs_ok raw d hd
    exact ⟨rfl, rfl⟩

/-- Witness for the amended C6: with the market cap absent the normalizer
returns no record. -/
theorem C6_witness : get_dcf_inputs rawNoMc = Except.ok none :=
  (C6_missing_fields rawNoMc).1.mpr rfl

/-- Counterexample to C7 as stated: with market cap 1 and total debt -2,
market cap plus debt is negative, yet the normalizer raises nothing and
computes a record (with its wacc) anyway. -/
theorem C7_counterexample :
    rawC7.info.marketCap = some 1 ∧ total_debt_val rawC7 = -2 ∧
    (1 : ℚ) + -2 ≤ 0 ∧
    ∃ d, get_dcf_inputs rawC7 = Except.ok (some d) := by
  refine ⟨rfl, by norm_num [rawC7, rawBase, total_debt_val], by norm_num, ?_⟩
  have hmc : rawC7.info.marketCap = some 1 := rfl
  unfold get_dcf_inputs
  rw [hmc]
  simp only []
  rw [if_neg (by norm_num [rawC7, rawBase, total_debt_val])]
  exact ⟨_, rfl⟩

/-- Claim C7 as amended: the normalizer raises (a division error) exactly
when market cap plus total debt equals zero; for any nonzero total,
including negative ones, the wacc is computed by the weighted formula. -/
theorem C7_degenerate_capital (raw : RawFinancials) (mc : ℚ)
    (hmc : raw.info.marketCap = some mc) :
    (get_dcf_inputs raw = Except.error PyErr.zeroDivision ↔
      mc + total_debt_val raw = 0) ∧
    ∀ d, get_dcf_inputs raw = Except.ok (some d) →
      d.wacc = (mc / (mc + total_debt_val raw)) * cost_of_equity raw +
        (total_debt_val raw / (mc + total_debt_val raw)) * cost_of_debt raw *
          (1 - tax_rate raw) := by
  constructor
  · unfold get_dcf_inputs
    rw [hmc]
    simp only []
    split_ifs with h <;> simp [h]
  · intro d hd
    obtain ⟨mc2, hmc2, htv, rfl⟩ := get_dcf_inputs_ok raw d hd
    rw [hmc] at hmc2
    obtain rfl : mc = mc2 := Option.some.inj hmc2
    rfl

/-- Witness for the amended C7: zero market cap plus debt raises. -/
theorem C7_witness :
    rawTV0.info.marketCap = some 100 ∧
    get_dcf_inputs rawTV0 = Except.error PyErr.zeroDivision := by
  have hmc : rawTV0.info.marketCap = some 100 := rfl
  refine ⟨hmc, (C7_degenerate_capital rawTV0 100 hmc).1.mpr ?_⟩
  norm_num [rawTV0, rawBase, total_debt_val]

/-- Counterexample to C8 as stated: the fallback is not observable in the
output; with the proxy absent the normalizer returns exactly what it
returns for a genuine 4 percent yield. -/
theorem C8_counterexample :
    rawC8.riskFreeProxy = none ∧
    get_dcf_inputs rawC8 = get_dcf_inputs { rawC8 with riskFreeProxy := some 4 } := by
  refine ⟨rfl, ?_⟩
  norm_num [get_dcf_inputs, rawC8, rawBase, total_debt_val, wacc_of, cost_of_equity,
    risk_free_rate, beta_val, cost_of_debt, implied_interest, tax_rate,
    ttm_pretax_assigned, ttm_fcf, op_cash, cap_ex, ttm_revenue, ttm4, market_return]

/-- Claim C8 as amended: when the risk-free-rate proxy is unavailable the
normalizer uses exactly 0.04 for the cost-of-equity computation, but the
fallback is silent: the output carries no diagnostic and is identical to
the output for a genuine 4 percent yield. -/
theorem C8_fallback (raw : RawFinancials) (h : raw.riskFreeProxy = none) :
    risk_free_rate raw = 4 / 100 ∧
    cost_of_equity raw = 4 / 100 + beta_val raw * (market_return - 4 / 100) ∧
    get_dcf_inputs raw = get_dcf_inputs { raw with riskFreeProxy := some 4 } := by
  have hr : risk_free_rate raw = 4 / 100 := by simp [risk_free_rate, h]
  have hr2 : risk_free_rate { raw with riskFreeProxy := some 4 } = 4 / 100 := by
    simp [risk_free_rate]
  have hce : cost_of_equity raw = cost_of_equity { raw with riskFreeProxy := some 4 } := by
    simp only [cost_of_equity, beta_val, hr, hr2]
  refine ⟨hr, by rw [cost_of_equity, hr], ?_⟩
  unfold get_dcf_inputs
  cases hmc : raw.info.marketCap with
  | none => simp [hmc]
  | some mc =>
    simp only [hmc]
    simp only [wacc_of, hce, total_debt_val, ttm_fcf, op_cash, cap_ex, ttm_revenue,
      ttm4, cost_of_debt, implied_interest, tax_rate, ttm_pretax_assigned]

/-- Witness for the amended C8 at a concrete input. -/
theorem C8_witness : rawC8.riskFreeProxy = none ∧ risk_free_rate rawC8 = 4 / 100 :=
  ⟨rfl, (C8_fallback rawC8 rfl).1⟩

/-- Claim C9: in all cases the TTM free cash flow is the operating-cash
sum plus the CapEx sum with no sign flip; when neither accepted CapEx
label is present the CapEx sum is 0, so the free cash flow equals the
operating-cash sum exactly, and a produced normalizer record carries
exactly that value. -/
theorem C9_capex_fallback (raw : RawFinancials) :
    ttm_fcf raw = op_cash raw + cap_ex raw ∧
    (raw.capitalExpenditure = none → raw.capex = none →
      cap_ex raw = 0 ∧ ttm_fcf raw = op_cash raw) ∧
    ∀ d, get_dcf_inputs raw = Except.ok (some d) →
      d.ttm_fcf = op_cash raw + cap_ex raw := by
  refine ⟨rfl, ?_, ?_⟩
  · intro h1 h2
    constructor <;> simp [cap_ex, ttm_fcf, h1, h2]
  · intro d hd
    obtain ⟨mc, hmc, htv, rfl⟩ := get_dcf_inputs_ok raw d hd
    rfl

/-- Witness for C9 at a concrete input with neither CapEx label. -/
theorem C9_witness :
    rawC9.capitalExpenditure = none ∧ rawC9.capex = none ∧
    ttm_fcf rawC9 = op_cash rawC9 :=
  ⟨rfl, rfl, ((C9_capex_fallback rawC9).2.1 rfl rfl).2⟩

/-- Claim C10: whenever the EBIT or the Pretax Income lookup fails (so the
local ttm_pretax of the source was never assigned and implied interest
defaults to 0), the tax rate defaults to 0.21 even when a Tax Provision
row is present, and replacing the Tax Provision data by anything at all
cannot change the tax rate. -/
theorem C10_taxrate_default (raw : RawFinancials)
    (h : raw.ebit = none ∨ raw.pretaxIncome = none) :
    implied_interest raw = 0 ∧ tax_rate raw = 21 / 100 ∧
    ∀ tp, tax_rate { raw with taxProvision := tp } = 21 / 100 := by
  have hpt : ttm_pretax_assigned raw = none := by
    rcases h with h | h
    · simp [ttm_pretax_assigned, h]
    · cases he : raw.ebit <;> simp [ttm_pretax_assigned, h, he]
  have hii : implied_interest raw = 0 := by
    rcases h with h | h
    · simp [implied_interest, h]
    · cases he : raw.ebit <;> simp [implied_interest, h, he]
  have htax : ∀ tp, tax_rate { raw with taxProvision := tp } = 21 / 100 := by
    intro tp
    have hpt2 : ttm_pretax_assigned { raw with taxProvision := tp } =
        ttm_pretax_assigned raw := rfl
    cases tp with
    | none => rfl
    | some v => simp [tax_rate, hpt2, hpt]
  refine ⟨hii, ?_, htax⟩
  cases htp : raw.taxProvision with
  | none => simp [tax_rate, htp]
  | some v => simp [tax_rate, htp, hpt]

/-- Witness for C10: EBIT absent while Pretax Income and Tax Provision are
present, yet the tax rate is the 0.21 default. -/
theorem C10_witness :
    rawC10.ebit = none ∧ rawC10.pretaxIncome = some [5, 5, 5, 5] ∧
    rawC10.taxProvision = some [1, 1, 1, 1] ∧
    tax_rate rawC10 = 21 / 100 :=
  ⟨rfl, rfl, rfl, (C10_taxrate_default rawC10 (Or.inl rfl)).2.1⟩

end DcfApp
